import Mathlib

/-!
Shallow embedding of the option-chain signal engine implemented in
`option_signals.py` (class `AdvancedOptionSignalGenerator`) of the
`option-chain-analyzer` repository, together with proofs settling the
specification claims about it.

Numeric idealization: all Python numbers are modelled as rationals, and
Python `round(x, 2)` is modelled as exact round-half-to-even to two
decimal places.  Python dictionary access `d.get(k, 0)` on leg fields is
modelled by total rational fields (a missing key behaves exactly as the
value 0).  A Python `KeyError` / `IndexError` escaping a function is
modelled by `Except.error`.
-/

namespace OptionSignals

/-- One option leg's quote fields (`item['CE']` / `item['PE']`).  The
source reads each field with `leg.get(key, 0)`, so a missing field
behaves as the value 0; the embedding therefore uses total fields with
default 0. -/
structure Leg where
  openInterest : ℚ := 0
  changeinOpenInterest : ℚ := 0
  totalTradedVolume : ℚ := 0
  impliedVolatility : ℚ := 0
  lastPrice : ℚ := 0
  delta : ℚ := 0
  gamma : ℚ := 0
  change : ℚ := 0
  pChange : ℚ := 0
deriving Repr, DecidableEq

/-- One strike row of the chain (`records['data'][i]`): a strike price,
an expiration date, and optional call / put legs (`'CE' in item`,
`'PE' in item`). -/
structure Row where
  strikePrice : ℚ
  expiryDate : String
  CE : Option Leg := none
  PE : Option Leg := none
deriving Repr, DecidableEq

/-- The `records` object of a raw snapshot.  `underlyingValue := none`
models a snapshot whose `records` dictionary lacks the
`'underlyingValue'` key (reading it raises `KeyError` in the source). -/
structure Records where
  underlyingValue : Option ℚ
  expiryDates : List String
  data : List Row
deriving Repr, DecidableEq

/-- A raw snapshot as received by `analyze_atm_strikes`: `none` models
`not data or 'records' not in data` being true. -/
abbrev Snapshot := Option Records

/-- The analysis record returned by `analyze_atm_strikes`. -/
structure Analysis where
  symbol : String
  current_price : ℚ
  atm_strike : ℚ
  expiry : String
  strikes_analyzed : List ℚ
  data : List Row
  all_data : List Row
deriving Repr, DecidableEq

/-- A scored candidate strike built by `select_optimal_strike`. -/
structure Candidate where
  strike : ℚ
  distance_from_atm : ℕ
  is_atm : Bool
  is_near_atm : Bool
  oi : ℚ
  coi : ℚ
  volume : ℚ
  iv : ℚ
  delta : ℚ
  gamma : ℚ
  ltp : ℚ
  change : ℚ
  change_percentage : ℚ
  score : ℚ := 0
  selection_reason : String := ""
deriving Repr, DecidableEq

/-- The result record returned by `generate_advanced_signal` (the
wall-clock `timestamp` field is presentation-only and not modelled;
`oi_ratio_out` embeds the dictionary key `'oi_ratio'`). -/
structure Signal where
  symbol : String
  signal : String
  option_type : String
  strike_price : ℚ
  current_price : ℚ
  atm_strike : ℚ
  distance_from_atm : ℕ
  option_ltp : ℚ
  option_change : ℚ
  option_change_percentage : ℚ
  oi : ℚ
  coi : ℚ
  volume : ℚ
  iv : ℚ
  delta : ℚ
  gamma : ℚ
  pcr_oi : ℚ
  pcr_volume : ℚ
  oi_ratio_out : ℚ
  strike_score : ℚ
  selection_reason : String
  signal_reason : String
deriving Repr, DecidableEq

/-- Python `min(x :: xs, key = k)` / `max(x :: xs, key = k)`: fold that
replaces the current best only when the new element is strictly better,
hence keeps the FIRST optimum of the list.  `P y b` reads "y is strictly
better than b". -/
def pickBy {α : Type} (P : α → α → Prop) [DecidableRel P] (x : α) (xs : List α) : α :=
  xs.foldl (fun b y => if P y b then y else b) x

/-- Python list slice `l[a:b]` for natural bounds. -/
def pySlice (l : List ℚ) (a b : ℕ) : List ℚ :=
  (l.drop a).take (b - a)

/-- Round-half-to-even to the nearest integer (the idealized semantics
of Python's `round` on exact values). -/
def roundHalfEven (x : ℚ) : ℤ :=
  let f : ℤ := Int.floor x
  let r : ℚ := x - f
  if r < 1/2 then f
  else if 1/2 < r then f + 1
  else if f % 2 = 0 then f else f + 1

/-- Python `round(x, 2)` on exact values. -/
def round2 (x : ℚ) : ℚ :=
  (roundHalfEven (100 * x) : ℚ) / 100

/-- Embedding of `analyze_atm_strikes(self, data, symbol)` (source lines 45-86).
Mirrors the source line by line: `None`/missing-`records` input returns
`None`; a missing `'underlyingValue'` key raises `KeyError`; an empty
`expiryDates` list raises `IndexError` at `expiry_dates[0]`; an empty
filtered row list returns `None`; otherwise the ATM strike, the sorted
strike list, and the `[max(0, atm_index-5) : min(len, atm_index+6)]`
slice are computed. -/
def analyze_atm_strikes (data : Snapshot) (symbol : String) :
    Except String (Option Analysis) :=
  match data with
  | none => .ok none
  | some records =>
    match records.underlyingValue with
    | none => .error "KeyError: underlyingValue"
    | some current_price =>
      match records.expiryDates with
      | [] => .error "IndexError: list index out of range"
      | current_expiry :: _ =>
        match records.data.filter (fun item => item.expiryDate == current_expiry) with
        | [] => .ok none
        | o :: os =>
          let option_data := o :: os
          let strikes := option_data.map (·.strikePrice)
          let atm_strike :=
            pickBy (fun y b => |y - current_price| < |b - current_price|)
              o.strikePrice (os.map (·.strikePrice))
          let all_strikes := List.insertionSort (· ≤ ·) strikes
          let atm_index := all_strikes.indexOf atm_strike
          let start_idx := atm_index - 5
          let end_idx := min all_strikes.length (atm_index + 6)
          let relevant_strikes := pySlice all_strikes start_idx end_idx
          let relevant_data := option_data.filter
            (fun item => relevant_strikes.contains item.strikePrice)
          .ok (some
            { symbol := symbol
              current_price := current_price
              atm_strike := atm_strike
              expiry := current_expiry
              strikes_analyzed := relevant_strikes
              data := relevant_data
              all_data := option_data })

/-- Accumulator of `calculate_pcr`'s six running totals. -/
structure PcrTotals where
  ce_oi : ℚ
  pe_oi : ℚ
  ce_volume : ℚ
  pe_volume : ℚ
  ce_coi : ℚ
  pe_coi : ℚ
deriving Repr, DecidableEq

/-- One iteration of `calculate_pcr`'s `for record in data` loop. -/
def pcrStep (t : PcrTotals) (record : Row) : PcrTotals :=
  let t1 :=
    match record.CE with
    | some ce =>
      { t with
        ce_oi := t.ce_oi + ce.openInterest
        ce_volume := t.ce_volume + ce.totalTradedVolume
        ce_coi := t.ce_coi + ce.changeinOpenInterest }
    | none => t
  match record.PE with
  | some pe =>
    { t1 with
      pe_oi := t1.pe_oi + pe.openInterest
      pe_volume := t1.pe_volume + pe.totalTradedVolume
      pe_coi := t1.pe_coi + pe.changeinOpenInterest }
  | none => t1

/-- Embedding of `calculate_pcr(self, data)` (source lines 88-114): sums OI / volume
over all rows, guards division by a non-positive call total, and rounds
both ratios to two decimals. -/
def calculate_pcr (data : List Row) : ℚ × ℚ :=
  if data = [] then (0, 0)
  else
    let t := data.foldl pcrStep ⟨0, 0, 0, 0, 0, 0⟩
    let pcr_oi := if 0 < t.ce_oi then t.pe_oi / t.ce_oi else 0
    let pcr_volume := if 0 < t.ce_volume then t.pe_volume / t.ce_volume else 0
    (round2 pcr_oi, round2 pcr_volume)

/-- Candidate-dictionary construction shared by the CE and PE branches
of `select_optimal_strike`'s loop (source lines 140-183). -/
def mkCandidate (a : Analysis) (strike : ℚ) (d : Leg) : Candidate :=
  let strike_index := a.strikes_analyzed.indexOf strike
  let atm_index := a.strikes_analyzed.indexOf a.atm_strike
  { strike := strike
    distance_from_atm := ((strike_index : ℤ) - (atm_index : ℤ)).natAbs
    is_atm := strike == a.atm_strike
    is_near_atm := decide (((strike_index : ℤ) - (atm_index : ℤ)).natAbs ≤ 1)
    oi := d.openInterest
    coi := d.changeinOpenInterest
    volume := d.totalTradedVolume
    iv := d.impliedVolatility
    delta := d.delta
    gamma := d.gamma
    ltp := d.lastPrice
    change := d.change
    change_percentage := d.pChange }

/-- The candidate-building loop of `select_optimal_strike` (source
lines 140-183): a CE candidate needs a CE leg and `strike >= price`,
a PE candidate needs a PE leg and `strike <= price`; list order follows
the window row order. -/
def buildCandidates (a : Analysis) (option_type : String) : List Candidate :=
  a.data.filterMap fun item =>
    if option_type == "CE" then
      match item.CE with
      | some ce_data =>
        if a.current_price ≤ item.strikePrice then
          some (mkCandidate a item.strikePrice ce_data)
        else none
      | none => none
    else
      match item.PE with
      | some pe_data =>
        if item.strikePrice ≤ a.current_price then
          some (mkCandidate a item.strikePrice pe_data)
        else none
      | none => none

/-- The multi-parameter score of one candidate (source lines 188-217):
ATM tier base, `min(oi/10000, 5)`, `coi/500`, `min(volume/1000, 3)`,
`max(0, 5 - iv/5)`, `+2` when `pChange > 0`, rounded to two decimals.
The Python guard `candidate['iv'] or 0` equals `iv` for every rational
value and is dropped. -/
def scoreOf (c : Candidate) : ℚ :=
  let base : ℚ :=
    if c.is_atm then 60
    else if c.is_near_atm then 50
    else 40 - (c.distance_from_atm : ℚ) * 5
  let oi_score := min (c.oi / 10000) 5
  let coi_score := c.coi / 500
  let volume_score := min (c.volume / 1000) 3
  let iv_score := max 0 (5 - c.iv / 5)
  let momentum : ℚ := if 0 < c.change_percentage then 2 else 0
  round2 (base + oi_score + coi_score + volume_score + iv_score + momentum)

/-- Embedding of `get_selection_reason(self, candidate)` (source lines 260-282). -/
def get_selection_reason (c : Candidate) : String :=
  let reasons : List String :=
    (if c.is_atm then ["ATM Strike"]
     else if c.is_near_atm then ["Near-ATM"]
     else [toString c.distance_from_atm ++ " steps from ATM"])
    ++ (if 0 < c.coi then ["Fresh Long Buildup"]
        else if c.coi < 0 then ["Long Unwinding"] else [])
    ++ (if 1000 < c.volume then ["High Volume"] else [])
    ++ (if c.iv ≠ 0 ∧ c.iv < 20 then ["Low IV"] else [])
  String.intercalate " | " reasons

/-- The scoring pass of `select_optimal_strike` (source lines 188-218):
every candidate receives its `score` and `selection_reason`. -/
def scored_candidates (a : Analysis) (option_type : String) : List Candidate :=
  (buildCandidates a option_type).map fun c =>
    { c with score := scoreOf c, selection_reason := get_selection_reason c }

/-- Embedding of `max(candidate_strikes, key=lambda x: x['score'])` (source line 221):
Python `max` keeps the first of equally-scored candidates. -/
def pyMaxByScore (x : Candidate) (xs : List Candidate) : Candidate :=
  pickBy (fun y b => b.score < y.score) x xs

/-- Embedding of `select_optimal_strike(self, analysis_data, option_type)` (source
lines 116-222; the duplicated block after the `return` on line 222 is
unreachable and not modelled). -/
def select_optimal_strike (analysis_data : Option Analysis) (option_type : String) :
    Option Candidate :=
  match analysis_data with
  | none => none
  | some a =>
    match scored_candidates a option_type with
    | [] => none
    | c :: cs => some (pyMaxByScore c cs)

/-- The bullish/bearish condition counters of `generate_advanced_signal`
(source lines 305-324): `pcr_oi > 1.5` adds 2 bullish, else
`pcr_oi > 1.2` adds 1; `pcr_oi < 0.6` adds 2 bearish, else
`pcr_oi < 0.8` adds 1; then `oi_ratio > 1.3` adds 1 bullish, elif
`oi_ratio < 0.7` adds 1 bearish.  Returns (bullish, bearish). -/
def signal_conditions (pcr_oi oiRatioArg : ℚ) : ℕ × ℕ :=
  let bullish : ℕ := if 3/2 < pcr_oi then 2 else if 6/5 < pcr_oi then 1 else 0
  let bearish : ℕ := if pcr_oi < 3/5 then 2 else if pcr_oi < 4/5 then 1 else 0
  if 13/10 < oiRatioArg then (bullish + 1, bearish)
  else if oiRatioArg < 7/10 then (bullish, bearish + 1)
  else (bullish, bearish)

/-- The window OI quotient computed inline by `generate_advanced_signal`
(source lines 296-298) over `analysis_data['data']`: put OI sum over
call OI sum, 0 when the call sum is not positive; NOT rounded here. -/
def windowOiQuot (data : List Row) : ℚ :=
  let total_ce_oi := (data.filterMap (fun item => item.CE.map Leg.openInterest)).sum
  let total_pe_oi := (data.filterMap (fun item => item.PE.map Leg.openInterest)).sum
  if 0 < total_ce_oi then total_pe_oi / total_ce_oi else 0

/-- Embedding of `generate_advanced_signal(self, analysis_data)` (source lines
283-376).  The `signal_reason` f-string's numeric interpolation is
presentation-only and modelled by its fixed prefix. -/
def generate_advanced_signal (analysis_data : Option Analysis) : Option Signal :=
  match analysis_data with
  | none => none
  | some a =>
    let pcr := calculate_pcr a.all_data
    let oiq := windowOiQuot a.data
    let conds := signal_conditions pcr.1 oiq
    let mkSig (sig ot reasonTxt : String) : Option Signal :=
      match select_optimal_strike (some a) ot with
      | none => none
      | some sd =>
        some
          { symbol := a.symbol
            signal := sig
            option_type := ot
            strike_price := sd.strike
            current_price := a.current_price
            atm_strike := a.atm_strike
            distance_from_atm := sd.distance_from_atm
            option_ltp := sd.ltp
            option_change := sd.change
            option_change_percentage := sd.change_percentage
            oi := sd.oi
            coi := sd.coi
            volume := sd.volume
            iv := sd.iv
            delta := sd.delta
            gamma := sd.gamma
            pcr_oi := pcr.1
            pcr_volume := pcr.2
            oi_ratio_out := round2 oiq
            strike_score := sd.score
            selection_reason := sd.selection_reason
            signal_reason := reasonTxt }
    if 3 ≤ conds.1 then mkSig "STRONG BUY" "CE" "Strong Bullish"
    else if 2 ≤ conds.1 then mkSig "BUY" "CE" "Bullish"
    else if 3 ≤ conds.2 then mkSig "STRONG BUY" "PE" "Strong Bearish"
    else if 2 ≤ conds.2 then mkSig "BUY" "PE" "Bearish"
    else none

/-- Rows of the snapshot's chosen expiration, in snapshot row order. -/
def expiry_rows (r : Records) (e : String) : List Row :=
  r.data.filter (fun item => item.expiryDate == e)

/-- Strike prices of the chosen expiration's rows, in row order
(possibly with repetitions). -/
def row_strikes (r : Records) (e : String) : List ℚ :=
  (expiry_rows r e).map (·.strikePrice)

/-- The ascending strike list `sorted(strikes)` of the chosen
expiration. -/
def sorted_strikes (r : Records) (e : String) : List ℚ :=
  List.insertionSort (· ≤ ·) (row_strikes r e)

/-- Independent specification-side sum: total call open interest. -/
def ceOiSum (data : List Row) : ℚ :=
  (data.map fun r => match r.CE with | some ce => ce.openInterest | none => 0).sum

/-- Independent specification-side sum: total put open interest. -/
def peOiSum (data : List Row) : ℚ :=
  (data.map fun r => match r.PE with | some pe => pe.openInterest | none => 0).sum

/-- Independent specification-side sum: total call traded volume. -/
def ceVolSum (data : List Row) : ℚ :=
  (data.map fun r => match r.CE with | some ce => ce.totalTradedVolume | none => 0).sum

/-- Independent specification-side sum: total put traded volume. -/
def peVolSum (data : List Row) : ℚ :=
  (data.map fun r => match r.PE with | some pe => pe.totalTradedVolume | none => 0).sum

/-- The raw (unrounded) put/call OI quotient with the source's zero
guard, stated over the specification-side sums. -/
def pcrOiQuot (data : List Row) : ℚ :=
  if 0 < ceOiSum data then peOiSum data / ceOiSum data else 0

/-- The raw (unrounded) put/call volume quotient with the source's zero
guard, stated over the specification-side sums. -/
def pcrVolQuot (data : List Row) : ℚ :=
  if 0 < ceVolSum data then peVolSum data / ceVolSum data else 0


/-- Independent specification-side sum: total call OI change. -/
def ceCoiSum (data : List Row) : ℚ :=
  (data.map fun r => match r.CE with | some ce => ce.changeinOpenInterest | none => 0).sum

/-- Independent specification-side sum: total put OI change. -/
def peCoiSum (data : List Row) : ℚ :=
  (data.map fun r => match r.PE with | some pe => pe.changeinOpenInterest | none => 0).sum

/-- Python `min`/`max` with a key function keeps the first optimum:
the fold result splits the input list into a strictly-worse prefix, the
result itself, and a not-strictly-better suffix. -/
theorem pickBy_spec {α : Type} (P : α → α → Prop) [DecidableRel P]
    (h1 : ∀ a b c, P a b → ¬ P c b → P a c)
    (h2 : ∀ a b, P a b → ¬ P b a) :
    ∀ (xs : List α) (x : α), ∃ l1 l2,
      x :: xs = l1 ++ (pickBy P x xs) :: l2
      ∧ (∀ c ∈ l1, P (pickBy P x xs) c)
      ∧ (∀ c ∈ l2, ¬ P c (pickBy P x xs)) := by
  intro xs
  induction xs with
  | nil =>
    intro x
    exact ⟨[], [], rfl, by simp, by simp [pickBy]⟩
  | cons y ys ih =>
    intro x
    by_cases hyx : P y x
    · have hm : pickBy P x (y :: ys) = pickBy P y ys := by
        simp [pickBy, if_pos hyx]
      obtain ⟨l1, l2, heq, hl1, hl2⟩ := ih y
      rw [hm]
      refine ⟨x :: l1, l2, ?_, ?_, ?_⟩
      · rw [List.cons_append, ← heq]
      · intro c hc
        rcases List.mem_cons.1 hc with hcx | hcl
        · subst hcx
          rcases l1 with _ | ⟨a, l1t⟩
          · simp only [List.nil_append] at heq
            obtain ⟨hy, -⟩ := (List.cons.injEq ..).mp heq
            rw [← hy]
            exact hyx
          · have hy : y = a := by
              have := heq
              rw [List.cons_append] at this
              exact (List.cons.injEq ..).mp this |>.1
            have hPmy : P (pickBy P y ys) y := by
              apply hl1
              rw [hy]; exact List.mem_cons_self a l1t
            exact h1 _ y c (by exact hPmy) (h2 y c hyx)
        · exact hl1 c hcl
      · exact hl2
    · have hm : pickBy P x (y :: ys) = pickBy P x ys := by
        simp [pickBy, if_neg hyx]
      obtain ⟨l1, l2, heq, hl1, hl2⟩ := ih x
      rw [hm]
      rcases l1 with _ | ⟨a, l1t⟩
      · simp only [List.nil_append] at heq
        obtain ⟨hx, hys⟩ := (List.cons.injEq ..).mp heq
        refine ⟨[], y :: ys, ?_, by simp, ?_⟩
        · simp [← hx]
        · intro c hc
          rcases List.mem_cons.1 hc with hcy | hcl
          · subst hcy; rw [← hx]; exact hyx
          · rw [hys] at hcl; exact hl2 c hcl
      · rw [List.cons_append] at heq
        obtain ⟨hx, hys⟩ := (List.cons.injEq ..).mp heq
        have hPmx : P (pickBy P x ys) x := by
          apply hl1; rw [hx]; exact List.mem_cons_self a l1t
        refine ⟨x :: y :: l1t, l2, ?_, ?_, hl2⟩
        · rw [List.cons_append, List.cons_append, ← hys]
        · intro c hc
          rcases List.mem_cons.1 hc with hcx | hc2
          · subst hcx; exact hPmx
          rcases List.mem_cons.1 hc2 with hcy | hcl
          · subst hcy; exact h1 _ x c hPmx hyx
          · exact hl1 c (List.mem_cons_of_mem a hcl)


/-! Concrete example data used by witnesses, counterexamples and
boundary demonstrations. -/

/-- Shorthand leg constructor: OI, ΔOI, volume, IV, last price, pChange. -/
def legQ (oiv coiv volv ivv ltpv pchv : ℚ) : Leg :=
  { openInterest := oiv, changeinOpenInterest := coiv, totalTradedVolume := volv,
    impliedVolatility := ivv, lastPrice := ltpv, pChange := pchv }

/-- Row with CE OI 100 and PE OI 50 at strike 100. -/
def rowA1 : Row :=
  { strikePrice := 100, expiryDate := "e",
    CE := some (legQ 100 0 0 0 1 0), PE := some (legQ 50 0 0 0 5 0) }

/-- Analysis whose ratios are strongly bearish: pcr 0.5, window quotient 0.5. -/
def exA1 : Analysis :=
  { symbol := "X", current_price := 100, atm_strike := 100, expiry := "e",
    strikes_analyzed := [100], data := [rowA1], all_data := [rowA1] }

/-- The unscored PE candidate the loop builds from `exA1`. -/
def cA1u : Candidate :=
  { strike := 100, distance_from_atm := 0, is_atm := true, is_near_atm := true,
    oi := 50, coi := 0, volume := 0, iv := 0, delta := 0, gamma := 0, ltp := 5,
    change := 0, change_percentage := 0 }

/-- The scored PE candidate selected from `exA1`. -/
def cA1 : Candidate :=
  { cA1u with score := 65, selection_reason := "ATM Strike" }

/-- The full signal record emitted for `exA1`. -/
def sigA1 : Signal :=
  { symbol := "X", signal := "STRONG BUY", option_type := "PE", strike_price := 100,
    current_price := 100, atm_strike := 100, distance_from_atm := 0, option_ltp := 5,
    option_change := 0, option_change_percentage := 0, oi := 50, coi := 0, volume := 0,
    iv := 0, delta := 0, gamma := 0, pcr_oi := 1/2, pcr_volume := 0, oi_ratio_out := 1/2,
    strike_score := 65, selection_reason := "ATM Strike", signal_reason := "Strong Bearish" }

/-- The end-to-end scoring example row of the specification: CE leg with
OI 50000, ΔOI 2000, volume 8000, IV 15, positive last price. -/
def rowC2 : Row :=
  { strikePrice := 20000, expiryDate := "e", CE := some (legQ 50000 2000 8000 15 100 0) }

/-- Analysis for the end-to-end scoring example: ATM strike 20000 at
distance 0. -/
def exC2 : Analysis :=
  { symbol := "N", current_price := 20000, atm_strike := 20000, expiry := "e",
    strikes_analyzed := [20000], data := [rowC2], all_data := [rowC2] }

/-- The unscored candidate of the end-to-end scoring example. -/
def cC2u : Candidate :=
  { strike := 20000, distance_from_atm := 0, is_atm := true, is_near_atm := true,
    oi := 50000, coi := 2000, volume := 8000, iv := 15, delta := 0, gamma := 0,
    ltp := 100, change := 0, change_percentage := 0 }

/-- The scored candidate of the end-to-end scoring example: the code
caps the OI term at 5 and the volume term at 3 and gives no momentum
bonus, so the score is 74, not 80. -/
def cC2 : Candidate :=
  { cC2u with
    score := 74
    selection_reason := "ATM Strike | Fresh Long Buildup | High Volume | Low IV" }

/-- Tie-break example, first candidate: ATM strike 20000, volume 3000,
score 63. -/
def rowC4b : Row :=
  { strikePrice := 20000, expiryDate := "e", CE := some (legQ 0 0 3000 25 10 0) }

/-- Tie-break example, second candidate: strike 20100 one step away,
volume 10000, also score 63. -/
def rowC4c : Row :=
  { strikePrice := 20100, expiryDate := "e", CE := some (legQ 0 5000 10000 25 5 0) }

/-- Analysis with two equally-scored CE candidates whose volumes
differ. -/
def exA4 : Analysis :=
  { symbol := "N", current_price := 20000, atm_strike := 20000, expiry := "e",
    strikes_analyzed := [19900, 20000, 20100], data := [rowC4b, rowC4c],
    all_data := [rowC4b, rowC4c] }

/-- First scored tie candidate (strike 20000, score 63, volume 3000). -/
def c4sel : Candidate :=
  { strike := 20000, distance_from_atm := 0, is_atm := true, is_near_atm := true,
    oi := 0, coi := 0, volume := 3000, iv := 25, delta := 0, gamma := 0, ltp := 10,
    change := 0, change_percentage := 0, score := 63,
    selection_reason := "ATM Strike | High Volume" }

/-- Second scored tie candidate (strike 20100, score 63, volume 10000). -/
def c4oth : Candidate :=
  { strike := 20100, distance_from_atm := 1, is_atm := false, is_near_atm := true,
    oi := 0, coi := 5000, volume := 10000, iv := 25, delta := 0, gamma := 0, ltp := 5,
    change := 0, change_percentage := 0, score := 63,
    selection_reason := "Near-ATM | Fresh Long Buildup | High Volume" }

/-- Rows of the 3-strike window example (strikes 100, 105, 110). -/
def r5a : Row := { strikePrice := 100, expiryDate := "e", CE := some (legQ 1 0 0 0 1 0) }

/-- Second row of the 3-strike window example. -/
def r5b : Row := { strikePrice := 105, expiryDate := "e", CE := some (legQ 1 0 0 0 1 0) }

/-- Third row of the 3-strike window example. -/
def r5c : Row := { strikePrice := 110, expiryDate := "e", CE := some (legQ 1 0 0 0 1 0) }

/-- Snapshot with only 3 strikes; the ATM strike 105 sits at index 1. -/
def rec5 : Records :=
  { underlyingValue := some 104, expiryDates := ["e"], data := [r5a, r5b, r5c] }

/-- The analysis produced for `rec5`: the window is all 3 strikes. -/
def res5 : Analysis :=
  { symbol := "S", current_price := 104, atm_strike := 105, expiry := "e",
    strikes_analyzed := [100, 105, 110], data := [r5a, r5b, r5c],
    all_data := [r5a, r5b, r5c] }

/-- ATM tie example row at strike 110, listed FIRST in snapshot order. -/
def row6a : Row := { strikePrice := 110, expiryDate := "e", CE := some (legQ 10 0 0 0 1 0) }

/-- ATM tie example row at strike 100, listed second. -/
def row6b : Row := { strikePrice := 100, expiryDate := "e", PE := some (legQ 10 0 0 0 1 0) }

/-- Snapshot with strikes in row order [110, 100] and underlying 105:
both strikes are at distance 5, and the source keeps the FIRST minimum
in row order, hence ATM = 110 (not the lower strike 100). -/
def rec6 : Records :=
  { underlyingValue := some 105, expiryDates := ["e"], data := [row6a, row6b] }

/-- The analysis produced for `rec6`: ATM is 110. -/
def res6 : Analysis :=
  { symbol := "S", current_price := 105, atm_strike := 110, expiry := "e",
    strikes_analyzed := [100, 110], data := [row6a, row6b], all_data := [row6a, row6b] }

/-- The same two strikes in ascending row order [100, 110]. -/
def rec6w : Records :=
  { underlyingValue := some 105, expiryDates := ["e"], data := [row6b, row6a] }

/-- The analysis produced for `rec6w`: with ascending rows the tie goes
to the lower strike 100. -/
def res6w : Analysis :=
  { symbol := "S", current_price := 105, atm_strike := 100, expiry := "e",
    strikes_analyzed := [100, 110], data := [row6b, row6a], all_data := [row6b, row6a] }

/-- Snapshot whose `records` lacks the underlying price. -/
def rec8 : Records :=
  { underlyingValue := none, expiryDates := ["e"], data := [row6a] }

/-- Snapshot with an empty expiration-date list. -/
def rec8b : Records :=
  { underlyingValue := some 100, expiryDates := [], data := [row6a] }

/-- Two distinct rows carrying the same strike price 100. -/
def r9a : Row := { strikePrice := 100, expiryDate := "e", CE := some (legQ 1 0 0 0 1 0) }

/-- Second duplicate-strike row. -/
def r9b : Row := { strikePrice := 100, expiryDate := "e", PE := some (legQ 1 0 0 0 1 0) }

/-- Snapshot whose chosen expiration carries the strike 100 twice. -/
def rec9 : Records :=
  { underlyingValue := some 100, expiryDates := ["e"], data := [r9a, r9b] }

/-- The analysis produced for `rec9`: the window [100, 100] repeats a
strike. -/
def res9 : Analysis :=
  { symbol := "S", current_price := 100, atm_strike := 100, expiry := "e",
    strikes_analyzed := [100, 100], data := [r9a, r9b], all_data := [r9a, r9b] }

/-- Row with call OI 3 and put OI 1: the exact put/call quotient 1/3
has no 2-decimal representation. -/
def rowC7 : Row :=
  { strikePrice := 100, expiryDate := "e",
    CE := some (legQ 3 0 0 0 1 0), PE := some (legQ 1 0 0 0 1 0) }

/-- Row with no call leg and put OI 5: zero call denominator. -/
def rowC7z : Row :=
  { strikePrice := 100, expiryDate := "e", PE := some (legQ 5 0 0 0 1 0) }

/-- Far row of the pcr-rounding demo (CE OI 980, PE OI 1177). -/
def r10all : Row :=
  { strikePrice := 200, expiryDate := "e",
    CE := some (legQ 980 0 0 0 1 0), PE := some (legQ 1177 0 0 0 1 0) }

/-- Window row of the pcr-rounding demo (CE OI 20, PE OI 27). -/
def r10w : Row :=
  { strikePrice := 100, expiryDate := "e",
    CE := some (legQ 20 0 0 0 1 0), PE := some (legQ 27 0 0 0 1 0) }

/-- Analysis whose raw pcr quotient 1204/1000 exceeds the 1.2 threshold
but rounds to exactly 1.2: the classifier sees the rounded value and
emits nothing. -/
def exA10 : Analysis :=
  { symbol := "X", current_price := 100, atm_strike := 100, expiry := "e",
    strikes_analyzed := [100], data := [r10w], all_data := [r10all, r10w] }

/-- Far row of the window-quotient demo (CE OI 100, PE OI 130). -/
def r11all : Row :=
  { strikePrice := 200, expiryDate := "e",
    CE := some (legQ 100 0 0 0 1 0), PE := some (legQ 130 0 0 0 1 0) }

/-- Window row of the window-quotient demo (CE OI 500, PE OI 651). -/
def r11w : Row :=
  { strikePrice := 100, expiryDate := "e",
    CE := some (legQ 500 0 0 0 1 0), PE := some (legQ 651 0 0 0 1 0) }

/-- Analysis whose window quotient 651/500 = 1.302 exceeds 1.3 only
unrounded: the classifier uses it unrounded (signal BUY CE) while the
emitted record carries the rounded value 1.3. -/
def exA11 : Analysis :=
  { symbol := "X", current_price := 100, atm_strike := 100, expiry := "e",
    strikes_analyzed := [100], data := [r11w], all_data := [r11all, r11w] }

/-- The scored candidate selected from `exA11`. -/
def cA11 : Candidate :=
  { strike := 100, distance_from_atm := 0, is_atm := true, is_near_atm := true,
    oi := 500, coi := 0, volume := 0, iv := 0, delta := 0, gamma := 0, ltp := 1,
    change := 0, change_percentage := 0, score := 1301/20, selection_reason := "ATM Strike" }

/-- The signal emitted for `exA11`. -/
def sigA11 : Signal :=
  { symbol := "X", signal := "BUY", option_type := "CE", strike_price := 100,
    current_price := 100, atm_strike := 100, distance_from_atm := 0, option_ltp := 1,
    option_change := 0, option_change_percentage := 0, oi := 500, coi := 0, volume := 0,
    iv := 0, delta := 0, gamma := 0, pcr_oi := 13/10, pcr_volume := 0,
    oi_ratio_out := 13/10, strike_score := 1301/20, selection_reason := "ATM Strike",
    signal_reason := "Bullish" }

/-- The bullish condition counter of the classifier run on an analysis
record, exactly as `generate_advanced_signal` computes it. -/
def bullish_score (a : Analysis) : ℕ :=
  (signal_conditions (calculate_pcr a.all_data).1 (windowOiQuot a.data)).1

/-- The bearish condition counter of the classifier run on an analysis
record, exactly as `generate_advanced_signal` computes it. -/
def bearish_score (a : Analysis) : ℕ :=
  (signal_conditions (calculate_pcr a.all_data).1 (windowOiQuot a.data)).2

lemma foldl_pcrStep : ∀ (data : List Row) (t : PcrTotals),
    data.foldl pcrStep t =
      ⟨t.ce_oi + ceOiSum data, t.pe_oi + peOiSum data,
       t.ce_volume + ceVolSum data, t.pe_volume + peVolSum data,
       t.ce_coi + ceCoiSum data, t.pe_coi + peCoiSum data⟩ := by
  intro data
  induction data with
  | nil =>
    intro t
    simp [ceOiSum, peOiSum, ceVolSum, peVolSum, ceCoiSum, peCoiSum]
  | cons r rs ih =>
    intro t
    rw [List.foldl_cons, ih]
    cases hce : r.CE <;> cases hpe : r.PE <;>
      simp [pcrStep, hce, hpe, ceOiSum, peOiSum, ceVolSum, peVolSum, ceCoiSum, peCoiSum,
        PcrTotals.mk.injEq, List.map_cons, List.sum_cons] <;>
      ring_nf <;> simp [add_comm, add_assoc, add_left_comm]

lemma round2_zero : round2 0 = 0 := by
  norm_num [round2, roundHalfEven]

lemma calculate_pcr_eq (data : List Row) :
    calculate_pcr data =
      (round2 (if 0 < ceOiSum data then peOiSum data / ceOiSum data else 0),
       round2 (if 0 < ceVolSum data then peVolSum data / ceVolSum data else 0)) := by
  rw [calculate_pcr]
  by_cases h : data = []
  · subst h
    simp [ceOiSum, peOiSum, ceVolSum, peVolSum, round2_zero]
  · rw [if_neg h, foldl_pcrStep]
    simp

lemma filterMap_ce_oi_sum (data : List Row) :
    (data.filterMap (fun item => item.CE.map Leg.openInterest)).sum = ceOiSum data := by
  induction data with
  | nil => simp [ceOiSum]
  | cons r rs ih =>
    cases hce : r.CE <;>
      simp [List.filterMap_cons, hce, ceOiSum, List.map_cons, List.sum_cons, ih]

lemma filterMap_pe_oi_sum (data : List Row) :
    (data.filterMap (fun item => item.PE.map Leg.openInterest)).sum = peOiSum data := by
  induction data with
  | nil => simp [peOiSum]
  | cons r rs ih =>
    cases hpe : r.PE <;>
      simp [List.filterMap_cons, hpe, peOiSum, List.map_cons, List.sum_cons, ih]

lemma windowOiQuot_eq (data : List Row) :
    windowOiQuot data = if 0 < ceOiSum data then peOiSum data / ceOiSum data else 0 := by
  rw [windowOiQuot]
  simp only [filterMap_ce_oi_sum, filterMap_pe_oi_sum]

lemma analyze_ok {r : Records} {p : ℚ} {e : String} {es : List String} {sym : String}
    {res : Analysis}
    (hp : r.underlyingValue = some p) (he : r.expiryDates = e :: es)
    (h : analyze_atm_strikes (some r) sym = .ok (some res)) :
    ∃ o os, expiry_rows r e = o :: os
      ∧ res.current_price = p
      ∧ res.all_data = o :: os
      ∧ res.atm_strike =
          pickBy (fun y b => |y - p| < |b - p|) o.strikePrice (os.map (·.strikePrice))
      ∧ res.strikes_analyzed =
          pySlice (sorted_strikes r e) ((sorted_strikes r e).indexOf res.atm_strike - 5)
            (min (sorted_strikes r e).length ((sorted_strikes r e).indexOf res.atm_strike + 6))
      ∧ res.data = (o :: os).filter (fun item => res.strikes_analyzed.contains item.strikePrice) := by
  obtain ⟨uv, eds, rdata⟩ := r
  simp only at hp he
  subst hp
  subst he
  simp only [analyze_atm_strikes] at h
  simp only [expiry_rows, sorted_strikes, row_strikes]
  rcases hf : List.filter (fun item => item.expiryDate == e) rdata with _ | ⟨o, os⟩ <;>
    rw [hf] at h
  · simp at h
  · simp only [Except.ok.injEq, Option.some.injEq] at h
    subst h
    exact ⟨o, os, hf, rfl, rfl, rfl, by simp [hf], rfl⟩

lemma pickBy_mem {α : Type} (P : α → α → Prop) [DecidableRel P] :
    ∀ (xs : List α) (x : α), pickBy P x xs ∈ x :: xs := by
  intro xs
  induction xs with
  | nil => intro x; simp [pickBy]
  | cons y ys ih =>
    intro x
    have hstep : pickBy P x (y :: ys) = pickBy P (if P y x then y else x) ys := by
      simp [pickBy]
    rw [hstep]
    by_cases hyx : P y x
    · rw [if_pos hyx]
      rcases List.mem_cons.1 (ih y) with h1 | h1
    
      · rw [h1]; exact List.mem_cons_of_mem x (List.mem_cons_self y ys)
      · exact List.mem_cons_of_mem x (List.mem_cons_of_mem y h1)
    · rw [if_neg hyx]
      rcases List.mem_cons.1 (ih x) with h1 | h1
      · rw [h1]; exact List.mem_cons_self x (y :: ys)
      · exact List.mem_cons_of_mem x (List.mem_cons_of_mem y h1)

lemma pySlice_length {l : List ℚ} {a b : ℕ} (hb : b ≤ l.length) :
    (pySlice l a b).length = b - a := by
  simp [pySlice, List.length_take, List.length_drop]
  omega

lemma pySlice_getElem? (l : List ℚ) (a b k : ℕ) :
    (pySlice l a b)[k]? = if a + k < b then l[a + k]? else none := by
  rw [pySlice, List.getElem?_take, List.getElem?_drop]
  have : k < b - a ↔ a + k < b := by omega
  by_cases hk : a + k < b
  · rw [if_pos hk, if_pos (this.2 hk)]
  · rw [if_neg hk, if_neg (fun hc => hk (this.1 hc))]

lemma atm_mem_sorted {r : Records} {p : ℚ} {e : String} {es : List String} {sym : String}
    {res : Analysis}
    (hp : r.underlyingValue = some p) (he : r.expiryDates = e :: es)
    (h : analyze_atm_strikes (some r) sym = .ok (some res)) :
    res.atm_strike ∈ sorted_strikes r e := by
  obtain ⟨o, os, hf, -, -, hatm, -, -⟩ := analyze_ok hp he h
  have hmem : res.atm_strike ∈ row_strikes r e := by
    rw [row_strikes, hf, List.map_cons]
    rw [hatm]
    exact pickBy_mem _ _ _
  exact ((List.perm_insertionSort (· ≤ ·) (row_strikes r e)).mem_iff).2 hmem

lemma generate_some_spec : ∀ (a : Analysis) (s : Signal),
    generate_advanced_signal (some a) = some s →
    s.pcr_oi = (calculate_pcr a.all_data).1
    ∧ s.pcr_volume = (calculate_pcr a.all_data).2
    ∧ s.oi_ratio_out = round2 (windowOiQuot a.data)
    ∧ ((3 ≤ (signal_conditions (calculate_pcr a.all_data).1 (windowOiQuot a.data)).1
          ∧ s.signal = "STRONG BUY" ∧ s.option_type = "CE")
       ∨ ((signal_conditions (calculate_pcr a.all_data).1 (windowOiQuot a.data)).1 = 2
          ∧ s.signal = "BUY" ∧ s.option_type = "CE")
       ∨ ((signal_conditions (calculate_pcr a.all_data).1 (windowOiQuot a.data)).1 < 2
          ∧ 3 ≤ (signal_conditions (calculate_pcr a.all_data).1 (windowOiQuot a.data)).2
          ∧ s.signal = "STRONG BUY" ∧ s.option_type = "PE")
       ∨ ((signal_conditions (calculate_pcr a.all_data).1 (windowOiQuot a.data)).1 < 2
          ∧ (signal_conditions (calculate_pcr a.all_data).1 (windowOiQuot a.data)).2 = 2
          ∧ s.signal = "BUY" ∧ s.option_type = "PE")) := by
  intro a s h
  simp only [generate_advanced_signal] at h
  split at h
  case isTrue hb1 =>
    rcases hsel : select_optimal_strike (some a) "CE" with _ | sd <;> rw [hsel] at h
    · simp at h
    · simp only [Option.some.injEq] at h
      subst h
      exact ⟨rfl, rfl, rfl, Or.inl ⟨hb1, rfl, rfl⟩⟩
  case isFalse hb1 =>
    split at h
    case isTrue hb2 =>
      rcases hsel : select_optimal_strike (some a) "CE" with _ | sd <;> rw [hsel] at h
      · simp at h
      · simp only [Option.some.injEq] at h
        subst h
        exact ⟨rfl, rfl, rfl, Or.inr (Or.inl ⟨by omega, rfl, rfl⟩)⟩
    case isFalse hb2 =>
      split at h
      case isTrue hb3 =>
        rcases hsel : select_optimal_strike (some a) "PE" with _ | sd <;> rw [hsel] at h
        · simp at h
        · simp only [Option.some.injEq] at h
          subst h
          exact ⟨rfl, rfl, rfl, Or.inr (Or.inr (Or.inl ⟨by omega, hb3, rfl, rfl⟩))⟩
      case isFalse hb3 =>
        split at h
        case isTrue hb4 =>
          rcases hsel : select_optimal_strike (some a) "PE" with _ | sd <;> rw [hsel] at h
          · simp at h
          · simp only [Option.some.injEq] at h
            subst h
            exact ⟨rfl, rfl, rfl, Or.inr (Or.inr (Or.inr ⟨by omega, by omega, rfl, rfl⟩))⟩
        case isFalse hb4 =>
          simp at h

lemma generate_none_of_neutral (a : Analysis)
    (h1 : (signal_conditions (calculate_pcr a.all_data).1 (windowOiQuot a.data)).1 < 2)
    (h2 : (signal_conditions (calculate_pcr a.all_data).1 (windowOiQuot a.data)).2 < 2) :
    generate_advanced_signal (some a) = none := by
  simp only [generate_advanced_signal]
  rw [if_neg (by omega), if_neg (by omega), if_neg (by omega), if_neg (by omega)]


/-! Evaluation lemmas for the concrete examples. -/

lemma round2_half : round2 (1/2) = 1/2 := by
  norm_num [round2, roundHalfEven]

lemma buildA1 : buildCandidates exA1 "PE" = [cA1u] := by
  norm_num [buildCandidates, exA1, rowA1, legQ, mkCandidate, List.filterMap_cons,
    List.filterMap_nil, List.indexOf_cons, List.indexOf_nil, cA1u]
  all_goals simp +decide

lemma scoreA1 : scoreOf cA1u = 65 := by
  norm_num [scoreOf, cA1u, round2, roundHalfEven]

lemma reasonA1 : get_selection_reason cA1u = "ATM Strike" := by
  norm_num [get_selection_reason, cA1u, String.intercalate, String.intercalate.go]

lemma scoredA1 : scored_candidates exA1 "PE" = [cA1] := by
  rw [scored_candidates, buildA1]
  simp [scoreA1, reasonA1, cA1]

lemma selA1 : select_optimal_strike (some exA1) "PE" = some cA1 := by
  simp [select_optimal_strike, scoredA1, pyMaxByScore, pickBy]

lemma pcrA1 : calculate_pcr exA1.all_data = (1/2, 0) := by
  norm_num [calculate_pcr, exA1, rowA1, legQ, pcrStep, round2, roundHalfEven,
    List.foldl_cons, List.foldl_nil]

lemma wqA1 : windowOiQuot exA1.data = 1/2 := by
  norm_num [windowOiQuot, exA1, rowA1, legQ, List.filterMap_cons, List.filterMap_nil,
    Option.map_some', List.sum_cons, List.sum_nil]

lemma evalGenA1 : generate_advanced_signal (some exA1) = some sigA1 := by
  norm_num [generate_advanced_signal, pcrA1, wqA1, selA1, signal_conditions, sigA1,
    cA1, cA1u, round2_half, Signal.mk.injEq]
  all_goals exact ⟨rfl, rfl, rfl⟩

lemma buildC2 : buildCandidates exC2 "CE" = [cC2u] := by
  norm_num [buildCandidates, exC2, rowC2, legQ, mkCandidate, List.filterMap_cons,
    List.filterMap_nil, List.indexOf_cons, List.indexOf_nil, cC2u]

lemma scoreC2 : scoreOf cC2u = 74 := by
  norm_num [scoreOf, cC2u, round2, roundHalfEven]

lemma reasonC2 : get_selection_reason cC2u
    = "ATM Strike | Fresh Long Buildup | High Volume | Low IV" := by
  norm_num [get_selection_reason, cC2u, String.intercalate, String.intercalate.go]
  all_goals rfl

lemma scoredC2 : scored_candidates exC2 "CE" = [cC2] := by
  rw [scored_candidates, buildC2]
  simp [scoreC2, reasonC2, cC2]

lemma buildA4 : buildCandidates exA4 "CE" =
    [{ c4sel with score := 0, selection_reason := "" },
     { c4oth with score := 0, selection_reason := "" }] := by
  norm_num [buildCandidates, exA4, rowC4b, rowC4c, legQ, mkCandidate, List.filterMap_cons,
    List.filterMap_nil, List.indexOf_cons, List.indexOf_nil, c4sel, c4oth]
  all_goals simp +decide

lemma scoredA4 : scored_candidates exA4 "CE" = [c4sel, c4oth] := by
  rw [scored_candidates, buildA4]
  norm_num [scoreOf, get_selection_reason, round2, roundHalfEven, c4sel, c4oth,
    String.intercalate, String.intercalate.go, Candidate.mk.injEq]
  all_goals exact ⟨rfl, rfl⟩

lemma selA4 : select_optimal_strike (some exA4) "CE" = some c4sel := by
  simp [select_optimal_strike, scoredA4, pyMaxByScore, pickBy, c4sel, c4oth]

lemma evalAn5 : analyze_atm_strikes (some rec5) "S" = .ok (some res5) := by
  norm_num [analyze_atm_strikes, rec5, r5a, r5b, r5c, legQ, pickBy, pySlice,
    List.insertionSort, List.orderedInsert, List.indexOf_cons, List.indexOf_nil,
    List.foldl_cons, List.foldl_nil, String.reduceEq, String.reduceBEq, List.filter_cons,
    List.filter_nil, res5, Analysis.mk.injEq]

lemma evalAn6 : analyze_atm_strikes (some rec6) "S" = .ok (some res6) := by
  norm_num [analyze_atm_strikes, rec6, row6a, row6b, legQ, pickBy, pySlice,
    List.insertionSort, List.orderedInsert, List.indexOf_cons, List.indexOf_nil,
    List.foldl_cons, List.foldl_nil, String.reduceEq, String.reduceBEq, List.filter_cons,
    List.filter_nil, res6, Analysis.mk.injEq]

lemma evalAn6w : analyze_atm_strikes (some rec6w) "S" = .ok (some res6w) := by
  norm_num [analyze_atm_strikes, rec6w, row6a, row6b, legQ, pickBy, pySlice,
    List.insertionSort, List.orderedInsert, List.indexOf_cons, List.indexOf_nil,
    List.foldl_cons, List.foldl_nil, String.reduceEq, String.reduceBEq, List.filter_cons,
    List.filter_nil, res6w, Analysis.mk.injEq]

lemma evalAn9 : analyze_atm_strikes (some rec9) "S" = .ok (some res9) := by
  norm_num [analyze_atm_strikes, rec9, r9a, r9b, legQ, pickBy, pySlice,
    List.insertionSort, List.orderedInsert, List.indexOf_cons, List.indexOf_nil,
    List.foldl_cons, List.foldl_nil, String.reduceEq, String.reduceBEq, List.filter_cons,
    List.filter_nil, res9, Analysis.mk.injEq]

lemma pcrA10 : calculate_pcr exA10.all_data = (6/5, 0) := by
  rw [calculate_pcr_eq]
  norm_num [ceOiSum, peOiSum, ceVolSum, peVolSum, exA10, r10all, r10w, legQ,
    List.map_cons, List.sum_cons, round2, roundHalfEven, round2_zero]

lemma wqA10 : windowOiQuot exA10.data = 27/20 := by
  norm_num [windowOiQuot, exA10, r10w, legQ, List.filterMap_cons, List.filterMap_nil,
    Option.map_some', List.sum_cons, List.sum_nil]

lemma evalGenA10 : generate_advanced_signal (some exA10) = none := by
  norm_num [generate_advanced_signal, pcrA10, wqA10, signal_conditions]

lemma buildA11 : buildCandidates exA11 "CE" =
    [{ cA11 with score := 0, selection_reason := "" }] := by
  norm_num [buildCandidates, exA11, r11w, legQ, mkCandidate, List.filterMap_cons,
    List.filterMap_nil, List.indexOf_cons, List.indexOf_nil, cA11]

lemma scoredA11 : scored_candidates exA11 "CE" = [cA11] := by
  rw [scored_candidates, buildA11]
  norm_num [scoreOf, get_selection_reason, round2, roundHalfEven, cA11,
    String.intercalate, String.intercalate.go, Candidate.mk.injEq]

lemma selA11 : select_optimal_strike (some exA11) "CE" = some cA11 := by
  simp [select_optimal_strike, scoredA11, pyMaxByScore, pickBy]

lemma pcrA11 : calculate_pcr exA11.all_data = (13/10, 0) := by
  rw [calculate_pcr_eq]
  norm_num [ceOiSum, peOiSum, ceVolSum, peVolSum, exA11, r11all, r11w, legQ,
    List.map_cons, List.sum_cons, round2, roundHalfEven, round2_zero]

lemma wqA11 : windowOiQuot exA11.data = 651/500 := by
  norm_num [windowOiQuot, exA11, r11w, legQ, List.filterMap_cons, List.filterMap_nil,
    Option.map_some', List.sum_cons, List.sum_nil]

lemma round2_1302 : round2 (651/500) = 13/10 := by
  norm_num [round2, roundHalfEven]

lemma evalGenA11 : generate_advanced_signal (some exA11) = some sigA11 := by
  norm_num [generate_advanced_signal, pcrA11, wqA11, selA11, signal_conditions, sigA11,
    cA11, round2_1302, Signal.mk.injEq]
  all_goals exact ⟨rfl, rfl, rfl⟩


/-- C2 (amended): every candidate scored by `select_optimal_strike`
carries the composite score (rounded to two decimals) of: the ATM-tier
base (60 / 50 / `40 - 5*distance`), plus `min(openInterest/10000, 5)`
(capped, unlike the claim), plus `changeInOpenInterest/500`, plus
`min(volume/1000, 3)` (capped), plus `max(0, 5 - impliedVolatility/5)`,
plus 2 when `pChange > 0` (the claim's `+1` for positive `lastPrice`
does not exist in the code). -/
theorem C2_corrected : ∀ (a : Analysis) (ot : String) (c : Candidate),
    c ∈ scored_candidates a ot →
    c.score = round2
      ((if c.is_atm then (60:ℚ) else if c.is_near_atm then 50
          else 40 - (c.distance_from_atm : ℚ) * 5)
        + min (c.oi / 10000) 5 + c.coi / 500 + min (c.volume / 1000) 3
        + max 0 (5 - c.iv / 5) + (if 0 < c.change_percentage then 2 else 0)) := by
  intro a ot c hc
  rw [scored_candidates] at hc
  obtain ⟨c0, hc0, rfl⟩ := List.mem_map.1 hc
  simp [scoreOf]

/-- C2 counterexample: the specification's end-to-end example input
(distance 0, OI 50000, ΔOI 2000, volume 8000, IV 15, positive last
price) is scored 74 by the code, not 80 as the claim states. -/
theorem C2_counterexample :
    (scored_candidates exC2 "CE").map (fun c => (c.strike, c.score)) = [(20000, 74)]
    ∧ (74 : ℚ) ≠ 80 := by
  refine ⟨?_, by norm_num⟩
  rw [scoredC2]
  norm_num [cC2, cC2u]

/-- C2 witness: the end-to-end example candidate is in the scored list
and its score satisfies the amended formula. -/
theorem C2_witness : cC2.score = round2
    ((if cC2.is_atm then (60:ℚ) else if cC2.is_near_atm then 50
        else 40 - (cC2.distance_from_atm : ℚ) * 5)
      + min (cC2.oi / 10000) 5 + cC2.coi / 500 + min (cC2.volume / 1000) 3
      + max 0 (5 - cC2.iv / 5) + (if 0 < cC2.change_percentage then 2 else 0)) := by
  refine C2_corrected exC2 "CE" cC2 ?_
  rw [scoredC2]
  exact List.mem_singleton.2 rfl

/-- C4 (amended): for every non-empty candidate list the returned best
candidate is the FIRST candidate (in candidate-list order) attaining the
maximal score: every earlier candidate scores strictly less and every
later one scores no more.  Volume plays no role in tie-breaking. -/
theorem C4_corrected : ∀ (a : Analysis) (ot : String) (m : Candidate),
    select_optimal_strike (some a) ot = some m →
    ∃ l1 l2, scored_candidates a ot = l1 ++ m :: l2
      ∧ (∀ c ∈ l1, c.score < m.score)
      ∧ (∀ c ∈ l2, c.score ≤ m.score) := by
  intro a ot m h
  rw [select_optimal_strike] at h
  rcases hs : scored_candidates a ot with _ | ⟨c, cs⟩ <;> rw [hs] at h
  · simp at h
  · simp only [Option.some.injEq] at h
    subst h
    obtain ⟨l1, l2, heq, hl1, hl2⟩ := pickBy_spec (fun y b : Candidate => b.score < y.score)
      (by intro x y z hxy hzy; push_neg at hzy; linarith)
      (by intro x y hxy; exact lt_asymm hxy)
      cs c
    refine ⟨l1, l2, ?_, hl1, fun c2 hc2 => not_lt.1 (hl2 c2 hc2)⟩
    rw [pyMaxByScore]
    exact heq

/-- C4 counterexample: two candidates tie at score 63 with volumes 3000
and 10000; the claim's `(score, volume)` rule picks strike 20100, but
the code returns the first maximal candidate, strike 20000. -/
theorem C4_counterexample :
    (scored_candidates exA4 "CE").map (fun c => (c.strike, c.score, c.volume))
      = [(20000, 63, 3000), (20100, 63, 10000)]
    ∧ (select_optimal_strike (some exA4) "CE").map (fun c => c.strike) = some 20000
    ∧ (20000 : ℚ) ≠ 20100 := by
  refine ⟨?_, ?_, by norm_num⟩
  · rw [scoredA4]
    norm_num [c4sel, c4oth]
  · rw [selA4]
    norm_num [c4sel]

/-- C4 witness: the selected tie candidate decomposes the scored list
with no strictly-greater score anywhere. -/
theorem C4_witness : ∃ l1 l2, scored_candidates exA4 "CE" = l1 ++ c4sel :: l2
    ∧ (∀ c ∈ l1, c.score < c4sel.score) ∧ (∀ c ∈ l2, c.score ≤ c4sel.score) :=
  C4_corrected exA4 "CE" c4sel selA4

/-- C5: for every snapshot from which a window is built, the window is
exactly the sorted strike list restricted to the inclusive index range
`[max(0, atmIndex-5), min(len-1, atmIndex+5)]` (stated element-wise via
`getElem?` together with the exact length), hence it holds at most 11
strikes and is truncated, not re-centered, near either boundary. -/
theorem C5_confirmed : ∀ (r : Records) (p : ℚ) (e : String) (es : List String) (sym : String)
    (res : Analysis),
    r.underlyingValue = some p → r.expiryDates = e :: es →
    analyze_atm_strikes (some r) sym = .ok (some res) →
    res.strikes_analyzed.length ≤ 11
    ∧ res.strikes_analyzed.length =
        min ((sorted_strikes r e).length - 1)
          ((sorted_strikes r e).indexOf res.atm_strike + 5) + 1
          - ((sorted_strikes r e).indexOf res.atm_strike - 5)
    ∧ ∀ k : ℕ, res.strikes_analyzed[k]? =
        if (sorted_strikes r e).indexOf res.atm_strike - 5 + k
            ≤ min ((sorted_strikes r e).length - 1)
                ((sorted_strikes r e).indexOf res.atm_strike + 5)
        then (sorted_strikes r e)[(sorted_strikes r e).indexOf res.atm_strike - 5 + k]?
        else none := by
  intro r p e es sym res hp he h
  obtain ⟨o, os, hf, -, -, -, hwin, -⟩ := analyze_ok hp he h
  have hmem := atm_mem_sorted hp he h
  have hilen : (sorted_strikes r e).indexOf res.atm_strike < (sorted_strikes r e).length :=
    List.indexOf_lt_length.2 hmem
  set l := sorted_strikes r e with hl
  set i := l.indexOf res.atm_strike with hi
  have hlen0 : 0 < l.length := Nat.pos_of_ne_zero (by intro hz; rw [hz] at hilen; omega)
  have hlen : res.strikes_analyzed.length = min l.length (i + 6) - (i - 5) := by
    rw [hwin]
    exact pySlice_length (by omega)
  refine ⟨by omega, by omega, ?_⟩
  intro k
  rw [hwin, pySlice_getElem?]
  have hcond : (i - 5 + k < min l.length (i + 6)) ↔ (i - 5 + k ≤ min (l.length - 1) (i + 5)) := by
    omega
  by_cases hk : i - 5 + k < min l.length (i + 6)
  · rw [if_pos hk, if_pos (hcond.1 hk)]
  · rw [if_neg hk, if_neg (fun hc => hk (hcond.2 hc))]

/-- C5 witness: with only 3 strikes and the ATM at index 1 the window
is all 3 strikes (no out-of-range access), and the window is within the
11-strike bound. -/
theorem C5_confirmed_witness :
    ∃ res, analyze_atm_strikes (some rec5) "S" = .ok (some res)
      ∧ res.strikes_analyzed = [100, 105, 110]
      ∧ res.strikes_analyzed.length ≤ 11 := by
  refine ⟨res5, evalAn5, by norm_num [res5], ?_⟩
  exact (C5_confirmed rec5 104 "e" [] "S" res5 rfl rfl evalAn5).1

/-- C6 (amended): the ATM strike is a member of the chosen expiration's
strike list and minimizes `|strike - underlying|`; equal-distance ties
resolve to the FIRST strike in snapshot row order (every strictly
earlier row is strictly farther), not to the lower strike.  The lower
strike wins only when the rows happen to be listed in ascending strike
order. -/
theorem C6_corrected : ∀ (r : Records) (p : ℚ) (e : String) (es : List String) (sym : String)
    (res : Analysis),
    r.underlyingValue = some p → r.expiryDates = e :: es →
    analyze_atm_strikes (some r) sym = .ok (some res) →
    res.atm_strike ∈ row_strikes r e
    ∧ (∀ s ∈ row_strikes r e, |res.atm_strike - p| ≤ |s - p|)
    ∧ ∃ l1 l2, row_strikes r e = l1 ++ res.atm_strike :: l2
        ∧ ∀ c ∈ l1, |res.atm_strike - p| < |c - p| := by
  intro r p e es sym res hp he h
  obtain ⟨o, os, hf, -, -, hatm, -, -⟩ := analyze_ok hp he h
  have hrow : row_strikes r e = o.strikePrice :: os.map (·.strikePrice) := by
    rw [row_strikes, hf, List.map_cons]
  have hspec := pickBy_spec (fun y b => |y - p| < |b - p|)
    (by intro a b c hab hcb; push_neg at hcb; linarith)
    (by intro a b hab; exact lt_asymm hab)
    (os.map (·.strikePrice)) o.strikePrice
  rw [← hatm] at hspec
  obtain ⟨l1, l2, heq, hl1, hl2⟩ := hspec
  rw [← hrow] at heq
  refine ⟨?_, ?_, l1, l2, heq, hl1⟩
  · rw [heq]
    exact List.mem_append.2 (Or.inr (List.mem_cons_self _ _))
  · intro s hs
    rw [heq] at hs
    rcases List.mem_append.1 hs with h1 | h2
    · exact le_of_lt (hl1 s h1)
    · rcases List.mem_cons.1 h2 with h3 | h4
      · rw [h3]
      · exact not_lt.1 (hl2 s h4)

/-- C6 counterexample: with rows in order [110, 100] and underlying
105, both strikes are at distance 5 but the code returns ATM = 110, not
the lower strike 100 the claim requires. -/
theorem C6_counterexample :
    (analyze_atm_strikes (some rec6) "S").map (fun o => o.map (fun a => a.atm_strike))
      = .ok (some 110)
    ∧ |(110:ℚ) - 105| = |(100:ℚ) - 105|
    ∧ (110 : ℚ) ≠ 100 := by
  refine ⟨?_, by norm_num, by norm_num⟩
  rw [evalAn6]
  norm_num [res6, Except.map]

/-- C6 witness: with the same strikes in ascending row order [100, 110]
the tie resolves to 100, which is a minimizing member of the strike
list. -/
theorem C6_witness :
    ∃ res, analyze_atm_strikes (some rec6w) "S" = .ok (some res)
      ∧ res.atm_strike = 100
      ∧ res.atm_strike ∈ row_strikes rec6w "e"
      ∧ ∀ s ∈ row_strikes rec6w "e", |res.atm_strike - 105| ≤ |s - 105| := by
  obtain ⟨h1, h2, -⟩ := C6_corrected rec6w 105 "e" [] "S" res6w rfl rfl evalAn6w
  exact ⟨res6w, evalAn6w, by norm_num [res6w], h1, h2⟩

/-- C9 (amended): the window strike list is always sorted ascending
(non-strictly); it is strictly ascending (hence duplicate-free)
whenever the snapshot's rows for the chosen expiration carry pairwise
distinct strike prices.  A snapshot repeating a strike propagates the
duplicate into the window. -/
theorem C9_corrected : ∀ (r : Records) (p : ℚ) (e : String) (es : List String) (sym : String)
    (res : Analysis),
    r.underlyingValue = some p → r.expiryDates = e :: es →
    analyze_atm_strikes (some r) sym = .ok (some res) →
    res.strikes_analyzed.Sorted (· ≤ ·)
    ∧ ((row_strikes r e).Nodup → res.strikes_analyzed.Sorted (· < ·)) := by
  intro r p e es sym res hp he h
  obtain ⟨o, os, hf, -, -, -, hwin, -⟩ := analyze_ok hp he h
  have hsub : res.strikes_analyzed.Sublist (sorted_strikes r e) := by
    rw [hwin, pySlice]
    exact (List.take_sublist _ _).trans (List.drop_sublist _ _)
  have hsorted : (sorted_strikes r e).Sorted (· ≤ ·) :=
    List.sorted_insertionSort (· ≤ ·) (row_strikes r e)
  have hle : res.strikes_analyzed.Sorted (· ≤ ·) := List.Pairwise.sublist hsub hsorted
  refine ⟨hle, ?_⟩
  intro hnd
  have hnd2 : (sorted_strikes r e).Nodup :=
    ((List.perm_insertionSort (· ≤ ·) (row_strikes r e)).nodup_iff).2 hnd
  have hnd3 : res.strikes_analyzed.Nodup := List.Nodup.sublist hsub hnd2
  exact List.Pairwise.imp (fun hab => lt_of_le_of_ne hab.1 hab.2) (hle.and hnd3)

/-- C9 counterexample: a snapshot carrying strike 100 on two rows of
the chosen expiration yields the window [100, 100], which is neither
strictly ascending nor duplicate-free as the claim requires. -/
theorem C9_counterexample :
    (analyze_atm_strikes (some rec9) "S").map (fun o => o.map (fun a => a.strikes_analyzed))
      = .ok (some [100, 100])
    ∧ ¬ List.Sorted (· < ·) [(100:ℚ), 100]
    ∧ ¬ List.Nodup [(100:ℚ), 100] := by
  refine ⟨?_, ?_, ?_⟩
  · rw [evalAn9]
    norm_num [res9, Except.map]
  · simp [List.sorted_cons]
  · simp

/-- C9 witness: on a snapshot with pairwise distinct strikes the window
is strictly ascending. -/
theorem C9_witness :
    ∃ res, analyze_atm_strikes (some rec5) "S" = .ok (some res)
      ∧ List.Sorted (· < ·) res.strikes_analyzed := by
  refine ⟨res5, evalAn5, ?_⟩
  refine (C9_corrected rec5 104 "e" [] "S" res5 rfl rfl evalAn5).2 ?_
  norm_num [row_strikes, expiry_rows, rec5, r5a, r5b, r5c, List.filter_cons,
    List.filter_nil]

/-- C1 (amended): when a signal is emitted, `bullish >= 3` gives label
STRONG BUY with side CE, `bullish = 2` gives BUY with CE, and — checked
only when `bullish < 2` — `bearish >= 3` gives label STRONG BUY (not
STRONG SELL) with side PE and `bearish = 2` gives BUY (not SELL) with
PE; when both counters are below 2 no signal is emitted.  The code
labels the put side STRONG BUY / BUY because the recommendation is to
buy a put. -/
theorem C1_corrected : ∀ (a : Analysis),
    (∀ s : Signal, generate_advanced_signal (some a) = some s →
      (3 ≤ bullish_score a → s.signal = "STRONG BUY" ∧ s.option_type = "CE")
      ∧ (bullish_score a = 2 → s.signal = "BUY" ∧ s.option_type = "CE")
      ∧ (bullish_score a < 2 → 3 ≤ bearish_score a →
          s.signal = "STRONG BUY" ∧ s.option_type = "PE")
      ∧ (bullish_score a < 2 → bearish_score a = 2 →
          s.signal = "BUY" ∧ s.option_type = "PE"))
    ∧ (bullish_score a < 2 → bearish_score a < 2 →
        generate_advanced_signal (some a) = none) := by
  intro a
  have hbeq : bullish_score a
      = (signal_conditions (calculate_pcr a.all_data).1 (windowOiQuot a.data)).1 := rfl
  have hreq : bearish_score a
      = (signal_conditions (calculate_pcr a.all_data).1 (windowOiQuot a.data)).2 := rfl
  constructor
  · intro s h
    obtain ⟨-, -, -, hd⟩ := generate_some_spec a s h
    refine ⟨?_, ?_, ?_, ?_⟩
    · intro hb
      rw [hbeq] at hb
      rcases hd with ⟨-, h1, h2⟩ | ⟨hx, -, -⟩ | ⟨hx, -, -, -⟩ | ⟨hx, -, -, -⟩
      · exact ⟨h1, h2⟩
      · omega
      · omega
      · omega
    · intro hb
      rw [hbeq] at hb
      rcases hd with ⟨hx, -, -⟩ | ⟨-, h1, h2⟩ | ⟨hx, -, -, -⟩ | ⟨hx, -, -, -⟩
      · omega
      · exact ⟨h1, h2⟩
      · omega
      · omega
    · intro hb hr
      rw [hbeq] at hb
      rw [hreq] at hr
      rcases hd with ⟨hx, -, -⟩ | ⟨hx, -, -⟩ | ⟨-, -, h1, h2⟩ | ⟨-, hx, -, -⟩
      · omega
      · omega
      · exact ⟨h1, h2⟩
      · omega
    · intro hb hr
      rw [hbeq] at hb
      rw [hreq] at hr
      rcases hd with ⟨hx, -, -⟩ | ⟨hx, -, -⟩ | ⟨-, hx, -, -⟩ | ⟨-, -, h1, h2⟩
      · omega
      · omega
      · omega
      · exact ⟨h1, h2⟩
  · intro h1 h2
    rw [hbeq] at h1
    rw [hreq] at h2
    exact generate_none_of_neutral a h1 h2

/-- C1 counterexample: on an analysis with bearish counter 3 the code
emits label STRONG BUY with side PE, not the STRONG SELL the claim
requires. -/
theorem C1_counterexample :
    generate_advanced_signal (some exA1) = some sigA1
    ∧ bearish_score exA1 = 3
    ∧ sigA1.signal = "STRONG BUY" ∧ sigA1.option_type = "PE"
    ∧ sigA1.signal ≠ "STRONG SELL" := by
  refine ⟨evalGenA1, ?_, rfl, rfl, by simp [sigA1]⟩
  norm_num [bearish_score, pcrA1, wqA1, signal_conditions]

/-- C1 witness: the bearish-3 example emits STRONG BUY / PE, as the
amended claim states. -/
theorem C1_witness : sigA1.signal = "STRONG BUY" ∧ sigA1.option_type = "PE" := by
  refine ((C1_corrected exA1).1 sigA1 evalGenA1).2.2.1 ?_ ?_
  · norm_num [bullish_score, pcrA1, wqA1, signal_conditions]
  · norm_num [bearish_score, pcrA1, wqA1, signal_conditions]

/-- C3 (amended): the classifier's thresholds are `pcr_oi > 1.5` (+2
bullish) else `> 1.2` (+1), `pcr_oi < 0.6` (+2 bearish) else `< 0.8`
(+1), and — in one if/elif chain — `oi_ratio > 1.3` (+1 bullish) elif
`oi_ratio < 0.7` (+1 bearish).  All comparisons are strict: `pcr_oi`
exactly 1.5 (and, as the claim notes, exactly 1.4) contributes bullish
1, not 2. -/
theorem C3_corrected : ∀ (q w : ℚ),
    (signal_conditions q w).1
      = (if 3/2 < q then 2 else if 6/5 < q then 1 else 0)
        + (if 13/10 < w then 1 else 0)
    ∧ (signal_conditions q w).2
      = (if q < 3/5 then 2 else if q < 4/5 then 1 else 0)
        + (if ¬ 13/10 < w ∧ w < 7/10 then 1 else 0)
    ∧ (signal_conditions (3/2) 1).1 = 1
    ∧ (signal_conditions (7/5) 1).1 = 1 := by
  intro q w
  refine ⟨?_, ?_, by norm_num [signal_conditions], by norm_num [signal_conditions]⟩
  · by_cases h1 : 13/10 < w
    · simp [signal_conditions, h1]
    · by_cases h2 : w < 7/10 <;> simp [signal_conditions, h1, h2]
  · by_cases h1 : 13/10 < w
    · simp [signal_conditions, h1]
    · by_cases h2 : w < 7/10 <;> simp [signal_conditions, h1, h2]

/-- C3 counterexample: at `pcr_oi = 1.45`, which exceeds the claim's
1.4 threshold, the code adds only 1 to the bullish counter, not the 2
the claim requires. -/
theorem C3_counterexample :
    (7:ℚ)/5 < 29/20 ∧ (signal_conditions (29/20) 1).1 = 1 ∧ (1:ℕ) ≠ 2 := by
  refine ⟨by norm_num, by norm_num [signal_conditions], by norm_num⟩

/-- C3 witness: the amended threshold equation evaluated at a concrete
point. -/
theorem C3_witness : (signal_conditions 2 1).1
    = (if (3:ℚ)/2 < 2 then 2 else if (6:ℚ)/5 < 2 then 1 else 0)
      + (if (13:ℚ)/10 < 1 then 1 else 0) :=
  (C3_corrected 2 1).1

/-- C7 (amended): `calculate_pcr` returns the put/call OI and volume
quotients ROUNDED to two decimals (the claim omits the rounding), each
0 when its call denominator is 0; the window `oi_ratio` of
`generate_advanced_signal` is exactly the unrounded windowed quotient,
0 when the windowed call OI sum is 0; no division error is possible. -/
theorem C7_corrected : ∀ data : List Row,
    calculate_pcr data = (round2 (pcrOiQuot data), round2 (pcrVolQuot data))
    ∧ (ceOiSum data = 0 → (calculate_pcr data).1 = 0)
    ∧ (ceVolSum data = 0 → (calculate_pcr data).2 = 0)
    ∧ windowOiQuot data = pcrOiQuot data
    ∧ (ceOiSum data = 0 → windowOiQuot data = 0) := by
  intro data
  have hc := calculate_pcr_eq data
  have hw := windowOiQuot_eq data
  refine ⟨by rw [hc]; rfl, ?_, ?_, by rw [hw]; rfl, ?_⟩
  · intro h0
    rw [hc]
    simp [pcrOiQuot, h0, round2_zero]
  · intro h0
    rw [hc]
    simp [pcrVolQuot, h0, round2_zero]
  · intro h0
    rw [hw]
    simp [h0]

/-- C7 counterexample: with put OI 1 and call OI 3 the true quotient is
1/3, but `calculate_pcr` returns 0.33; the returned `pcr_oi` does not
equal the quotient of the sums as the claim states. -/
theorem C7_counterexample :
    calculate_pcr [rowC7] = (33/100, 0)
    ∧ peOiSum [rowC7] / ceOiSum [rowC7] = 1/3
    ∧ (calculate_pcr [rowC7]).1 ≠ peOiSum [rowC7] / ceOiSum [rowC7] := by
  have h1 : calculate_pcr [rowC7] = (33/100, 0) := by
    rw [calculate_pcr_eq]
    norm_num [ceOiSum, peOiSum, ceVolSum, peVolSum, rowC7, legQ, round2, roundHalfEven,
      round2_zero]
  have h2 : peOiSum [rowC7] / ceOiSum [rowC7] = 1/3 := by
    norm_num [peOiSum, ceOiSum, rowC7, legQ]
  refine ⟨h1, h2, ?_⟩
  rw [h1, h2]
  norm_num

/-- C7 witness: a row set with zero call OI yields ratio 0 from both
the rounded return and the window quotient — no division error. -/
theorem C7_witness : (calculate_pcr [rowC7z]).1 = 0 ∧ windowOiQuot [rowC7z] = 0 := by
  have h := C7_corrected [rowC7z]
  have h0 : ceOiSum [rowC7z] = 0 := by norm_num [ceOiSum, rowC7z, legQ]
  exact ⟨h.2.1 h0, h.2.2.2.2 h0⟩

/-- C8 (amended): the window selector returns None for a null snapshot
or one with no rows for the chosen expiration, but a snapshot lacking
the underlying price raises KeyError and one with an empty expiration
list raises IndexError — it does NOT absorb those two failures. -/
theorem C8_corrected : ∀ (sym : String) (r : Records),
    analyze_atm_strikes none sym = .ok none
    ∧ (r.underlyingValue = none →
        analyze_atm_strikes (some r) sym = .error "KeyError: underlyingValue")
    ∧ (∀ p : ℚ, r.underlyingValue = some p → r.expiryDates = [] →
        analyze_atm_strikes (some r) sym = .error "IndexError: list index out of range")
    ∧ (∀ (p : ℚ) (e : String) (es : List String),
        r.underlyingValue = some p → r.expiryDates = e :: es →
        expiry_rows r e = [] → analyze_atm_strikes (some r) sym = .ok none) := by
  intro sym r
  obtain ⟨uv, eds, rdata⟩ := r
  refine ⟨rfl, ?_, ?_, ?_⟩
  · intro hu
    simp only at hu
    subst hu
    rfl
  · intro p hu he
    simp only at hu he
    subst hu
    subst he
    rfl
  · intro p e es hu he hf
    simp only at hu he
    subst hu
    subst he
    simp only [expiry_rows] at hf
    simp only [analyze_atm_strikes, hf]

/-- C8 counterexample: a snapshot lacking the underlying price makes
the window selector raise KeyError instead of returning None as the
claim states. -/
theorem C8_counterexample :
    analyze_atm_strikes (some rec8) "S" = .error "KeyError: underlyingValue"
    ∧ (Except.error "KeyError: underlyingValue"
        ≠ (.ok none : Except String (Option Analysis))) := by
  exact ⟨rfl, by simp⟩

/-- C8 witness: the empty-expiration-list snapshot raises IndexError,
per the amended claim. -/
theorem C8_witness :
    analyze_atm_strikes (some rec8b) "S" = .error "IndexError: list index out of range" :=
  (C8_corrected "S" rec8b).2.2.1 100 rfl rfl

/-- C10: `calculate_pcr` returns both put/call ratios rounded to two
decimals; the classifier counters compare exactly this rounded `pcr_oi`
against the thresholds while the window `oi_ratio` is compared
unrounded and rounded only in the emitted record.  Concretely: a raw
pcr quotient of 1.204 (> 1.2) rounds to 1.2 and produces NO signal,
while a window quotient of 1.302 (> 1.3 only unrounded) produces a BUY
CE signal whose record carries the rounded 1.3. -/
theorem C10_confirmed :
    (∀ (a : Analysis) (s : Signal), generate_advanced_signal (some a) = some s →
      s.pcr_oi = round2 (pcrOiQuot a.all_data)
      ∧ s.pcr_volume = round2 (pcrVolQuot a.all_data)
      ∧ s.oi_ratio_out = round2 (windowOiQuot a.data)
      ∧ bullish_score a
          = (signal_conditions (round2 (pcrOiQuot a.all_data)) (windowOiQuot a.data)).1
      ∧ bearish_score a
          = (signal_conditions (round2 (pcrOiQuot a.all_data)) (windowOiQuot a.data)).2)
    ∧ generate_advanced_signal (some exA10) = none
    ∧ (6:ℚ)/5 < pcrOiQuot exA10.all_data
    ∧ round2 (pcrOiQuot exA10.all_data) = 6/5
    ∧ (signal_conditions (pcrOiQuot exA10.all_data) (windowOiQuot exA10.data)).1 = 2
    ∧ generate_advanced_signal (some exA11) = some sigA11
    ∧ sigA11.oi_ratio_out = round2 (windowOiQuot exA11.data)
    ∧ (13:ℚ)/10 < windowOiQuot exA11.data
    ∧ ¬ (13:ℚ)/10 < round2 (windowOiQuot exA11.data) := by
  have hq10 : pcrOiQuot exA10.all_data = 301/250 := by
    norm_num [pcrOiQuot, ceOiSum, peOiSum, exA10, r10all, r10w, legQ]
  have hr10 : round2 (301/250 : ℚ) = 6/5 := by
    norm_num [round2, roundHalfEven]
  refine ⟨?_, evalGenA10, ?_, ?_, ?_, evalGenA11, ?_, ?_, ?_⟩
  · intro a s h
    obtain ⟨h1, h2, h3, -⟩ := generate_some_spec a s h
    have hc := calculate_pcr_eq a.all_data
    refine ⟨?_, ?_, h3, ?_, ?_⟩
    · rw [h1, hc]
      rfl
    · rw [h2, hc]
      rfl
    · rw [bullish_score, hc]
      rfl
    · rw [bearish_score, hc]
      rfl
  · rw [hq10]
    norm_num
  · rw [hq10, hr10]
  · rw [hq10, wqA10]
    norm_num [signal_conditions]
  · rw [wqA11, round2_1302]
    norm_num [sigA11]
  · rw [wqA11]
    norm_num
  · rw [wqA11, round2_1302]
    norm_num

/-- C10 witness: the emitted BUY CE record of the window-quotient
example carries the rounded ratios the general statement prescribes. -/
theorem C10_confirmed_witness :
    sigA11.pcr_oi = round2 (pcrOiQuot exA11.all_data)
    ∧ sigA11.oi_ratio_out = round2 (windowOiQuot exA11.data) := by
  have h := C10_confirmed.1 exA11 sigA11 evalGenA11
  exact ⟨h.1, h.2.2.1⟩

end OptionSignals
